import Mathlib

/-!
Verification development for the deepseek-proxy repository.

The definitions below are a shallow embedding of the request-resilience
pipeline: the adaptive message truncator, the default-system-message
injection, the max_tokens clamp, the multi-model fallback dispatcher
with its process-wide sticky current model and failure counter, the
error-mapping catch block of the chat-completions handler, and the
incremental SSE line-buffering of the streaming normalizer.

JavaScript numbers used as integers are modelled by Nat/Int; JS
`undefined`/falsy optional values by Option; thrown exceptions by an
explicit error type; the process-wide mutable variables by explicit
state passing.  The upstream HTTP client (axios) and the JSON codec
are external collaborators and enter as parameters.
-/

namespace DeepseekProxy

/-! ### Configuration constants (src/unnamed/part_002, lines 19-34) -/

def PRIMARY_MODEL : String := "deepseek-ai/deepseek-v3.2"

def FALLBACK_MODELS : List String :=
  [ "deepseek-ai/deepseek-v3.1",
    "deepseek-ai/deepseek-v3.2",
    "deepseek-ai/deepseek-v3.1-terminus",
    "deepseek-ai/deepseek-r1-distill-qwen-32b" ]

def ENABLE_SMART_TRUNCATION : Bool := true

/-- A truncation tier.  `threshold` is `none` for the JS `Infinity`
threshold of the `huge` tier. -/
structure TruncationTier where
  threshold : Option Nat
  keep : Nat
  keepFirst : Nat
deriving DecidableEq

def tierSmall : TruncationTier := ⟨some 100, 100, 0⟩

def tierMedium : TruncationTier := ⟨some 300, 120, 10⟩

def tierLarge : TruncationTier := ⟨some 1000, 150, 15⟩

def tierHuge : TruncationTier := ⟨none, 180, 20⟩

/-! ### Truncator (src/unnamed/part_002, lines 119-150) -/

/-- Tier selection chain of `truncateMessages`: the comparisons are
against `tierSmall.threshold = 100`, `tierMedium.threshold = 300` and
`tierLarge.threshold = 1000`; the `huge` tier is the final `else`
branch (its `Infinity` threshold is never compared). -/
def selectTier (n : Nat) : TruncationTier :=
  if n < 100 then tierSmall
  else if n < 300 then tierMedium
  else if n < 1000 then tierLarge
  else tierHuge

/-- JS `xs.slice(-k)`: the last `k` elements for `k > 0` (all of `xs`
when `k ≥ xs.length`), and all of `xs` for `k = 0` (because
`slice(-0)` is `slice(0)`). -/
def jsSliceNeg {α : Type} (xs : List α) (k : Nat) : List α :=
  if k = 0 then xs else xs.drop (xs.length - k)

/-- `truncateMessages` from src/unnamed/part_002: pick a tier from the
history length; return the history unchanged when it fits in
`tier.keep`; otherwise keep the first `tier.keepFirst` messages and
the last `tier.keep - tier.keepFirst` messages. -/
def truncateMessages {α : Type} (messages : List α) : List α :=
  if !ENABLE_SMART_TRUNCATION then messages
  else
    let tier := selectTier messages.length
    if messages.length ≤ tier.keep then messages
    else
      let firstMessages := if 0 < tier.keepFirst then messages.take tier.keepFirst else []
      let recentMessages := jsSliceNeg messages (tier.keep - tier.keepFirst)
      firstMessages ++ recentMessages

/-! ### Request-handler normalization (src/unnamed/part_002, lines 231-252) -/

structure ChatMessage where
  role : String
  content : String
deriving DecidableEq

/-- The synthesized default system message of the chat handler. -/
def antiAnalyzingSystemMessage : ChatMessage :=
  { role := "system",
    content := "Respond naturally and directly. Do not analyze or overthink. Answer concisely and stay in character." }

/-- Lines 238-247 of src/unnamed/part_002: prepend the default system
message when no message of the history has role "system". -/
def injectSystemMessage (messages : List ChatMessage) : List ChatMessage :=
  let hasSystemMessage := messages.any (fun msg => msg.role == "system")
  if hasSystemMessage then messages
  else antiAnalyzingSystemMessage :: messages

/-- Lines 234-235 of src/unnamed/part_002: the requested `max_tokens`
defaults to 12000 when the body omits the field, then is clamped by
`Math.min(Math.max(requested, 200), 8000)`. -/
def effectiveMaxTokens (bodyMaxTokens : Option Int) : Int :=
  let requestedMaxTokens := match bodyMaxTokens with
    | some v => v
    | none => 12000
  min (max requestedMaxTokens 200) 8000

/-- Lines 238-252 of src/unnamed/part_002: the handler injects the
default system message and then truncates, in that order, before
dispatching. -/
def prepareMessages (messages : List ChatMessage) : List ChatMessage :=
  truncateMessages (injectSystemMessage messages)

/-! ### Fallback dispatcher (src/unnamed/part_002, lines 152-220)

One upstream axios call is made per attempt.  With
`validateStatus: status < 500`, axios resolves for any status below
500 and rejects otherwise; a rejection either carries the upstream
response (status ≥ 500) or has no response (network error, timeout).
The outcome of each attempt is supplied by an environment function
indexed by the attempt number, since each attempt number performs
exactly one upstream call. -/

inductive AttemptOutcome where
  | resolved (status : Nat) (data : Option String)
  | thrownResponse (status : Nat) (data : Option String)
  | thrownNetwork (message : String)

/-- An error thrown out of `makeNvidiaRequest`: the "all fallback
models exhausted" Error, a thrown object carrying an upstream
response (its status and JS-truthy data, `none` for a missing or
falsy body), or a network-style error with no response field. -/
inductive ReqError where
  | exhausted
  | withResponse (status : Nat) (data : Option String)
  | network (message : String)
deriving DecidableEq

/-- The process-wide mutable state of src/unnamed/part_002, lines
37-38: `currentModel` (seeded to `PRIMARY_MODEL`) and
`failedAttempts`. -/
structure ProxyState where
  currentModel : String
  failedAttempts : Nat
deriving DecidableEq

/-- Result of a `makeNvidiaRequest` call: the returned response model
or the thrown error, the final process-wide state, and the ordered
list of models actually attempted (one upstream call each). -/
structure DispatchResult where
  result : Except ReqError String
  state : ProxyState
  attempts : List String

/-- `makeNvidiaRequest` from src/unnamed/part_002.  Attempt 0 uses
`currentModel`, attempt `k > 0` uses `FALLBACK_MODELS[k-1]`; an
out-of-range index throws the exhausted error.  Status 200 resets the
failure counter, promotes the model and returns.  A resolved 4xx
retries with the next attempt number when fallbacks remain (the
recursive call is returned without `await`, so a rejection of the
recursion is NOT caught by this level's catch), else throws the
response.  Any other resolved status throws the response into the
local catch; thrown errors retry when fallbacks remain, else
propagate. -/
def makeNvidiaRequest (env : Nat → AttemptOutcome) (attemptNum : Nat)
    (st : ProxyState) : DispatchResult :=
  match (if attemptNum = 0 then some st.currentModel else FALLBACK_MODELS[attemptNum - 1]?) with
  | none => ⟨.error .exhausted, st, []⟩
  | some modelToUse =>
    match env attemptNum with
    | .resolved status data =>
      if status = 200 then
        ⟨.ok modelToUse, ⟨modelToUse, 0⟩, [modelToUse]⟩
      else if 400 ≤ status ∧ status < 500 then
        if h : attemptNum < FALLBACK_MODELS.length then
          let r := makeNvidiaRequest env (attemptNum + 1) ⟨st.currentModel, st.failedAttempts + 1⟩
          ⟨r.result, r.state, modelToUse :: r.attempts⟩
        else ⟨.error (.withResponse status data), st, [modelToUse]⟩
      else
        if h : attemptNum < FALLBACK_MODELS.length then
          let r := makeNvidiaRequest env (attemptNum + 1) ⟨st.currentModel, st.failedAttempts + 1⟩
          ⟨r.result, r.state, modelToUse :: r.attempts⟩
        else ⟨.error (.withResponse status data), st, [modelToUse]⟩
    | .thrownResponse status data =>
        if h : attemptNum < FALLBACK_MODELS.length then
          let r := makeNvidiaRequest env (attemptNum + 1) ⟨st.currentModel, st.failedAttempts + 1⟩
          ⟨r.result, r.state, modelToUse :: r.attempts⟩
        else ⟨.error (.withResponse status data), st, [modelToUse]⟩
    | .thrownNetwork msg =>
        if h : attemptNum < FALLBACK_MODELS.length then
          let r := makeNvidiaRequest env (attemptNum + 1) ⟨st.currentModel, st.failedAttempts + 1⟩
          ⟨r.result, r.state, modelToUse :: r.attempts⟩
        else ⟨.error (.network msg), st, [modelToUse]⟩
termination_by FALLBACK_MODELS.length + 1 - attemptNum
decreasing_by all_goals omega

/-! ### Handler catch block (src/unnamed/part_002, lines 309-341) -/

/-- The JSON error body written by the catch block of the
chat-completions handler: either one of the fixed user-safe bodies,
or the upstream response data passed through. -/
inductive ErrorBody where
  | fixedMessage (message type_ : String) (code : Nat)
  | upstreamData (data : String)
deriving DecidableEq

/-- `error.response` of a caught error: status and JS-truthy data. -/
def errResponse : ReqError → Option (Nat × Option String)
  | .exhausted => none
  | .network _ => none
  | .withResponse s d => some (s, d)

/-- The catch block of `app.post("/v1/chat/completions")`: no
response or falsy response data gives 503 with the fixed
service-unavailable body; status 429 (with data) gives the fixed
rate-limit body; otherwise the upstream status and data are passed
through.  (The JS fallback branch for a missing response at the final
`res.status` is unreachable: the first guard already returned.) -/
def chatCompletionsCatch (e : ReqError) : Nat × ErrorBody :=
  match errResponse e with
  | none =>
      (503, .fixedMessage "All models temporarily unavailable" "service_unavailable" 503)
  | some (_, none) =>
      (503, .fixedMessage "All models temporarily unavailable" "service_unavailable" 503)
  | some (s, some d) =>
      if s = 429 then
        (429, .fixedMessage "Rate limit exceeded. Please wait 5-10 minutes." "rate_limit_error" 429)
      else (s, .upstreamData d)

/-- The handler's failure path: dispatch from attempt 0 and, when the
dispatcher throws, map the error through the catch block.  `none`
means the dispatch succeeded and no error response is produced. -/
def handleChatFailure (env : Nat → AttemptOutcome) (st : ProxyState) :
    Option (Nat × ErrorBody) :=
  match (makeNvidiaRequest env 0 st).result with
  | .ok _ => none
  | .error e => some (chatCompletionsCatch e)

/-! ### Streaming normalizer (src/server.js, lines 140-196)

The stream data handler keeps two mutable variables: `buffer` (the
trailing partial line) and `reasoningStarted`.  Each chunk is
appended to the buffer, the buffer is split on newlines, the last
segment is held back as the new buffer, and each complete line is
processed.  JSON.parse / JSON.stringify are external collaborators
and enter as parameters. -/

def SHOW_REASONING : Bool := false

/-- `choices[0].delta` of a parsed SSE event. -/
structure Delta where
  content : Option String
  reasoning_content : Option String
deriving DecidableEq

/-- A parsed `data:` event: the delta (when `choices?.[0]?.delta` is
present) and the rest of the parsed object, opaque. -/
structure SSEData where
  delta : Option Delta
  rest : String
deriving DecidableEq

/-- JS truthiness of an optional string: `undefined`/absent and the
empty string are falsy. -/
def jsTruthyStr : Option String → Bool
  | none => false
  | some s => !(s == "")

/-- The delta rewrite of the stream handler (src/server.js, lines
158-189), threading the `reasoningStarted` flag.  With
`SHOW_REASONING` disabled the delta's content is kept (defaulted to
the empty string when falsy) and `reasoning_content` is deleted. -/
def transformDelta (reasoningStarted : Bool) (delta : Delta) : Bool × Delta :=
  if SHOW_REASONING then
    let reasoning := delta.reasoning_content
    let content := delta.content
    let c1 : String :=
      if jsTruthyStr reasoning && !reasoningStarted then "<think>\n" ++ reasoning.getD ""
      else if jsTruthyStr reasoning then reasoning.getD ""
      else ""
    let rs1 : Bool := if jsTruthyStr reasoning && !reasoningStarted then true else reasoningStarted
    let c2 : String :=
      if jsTruthyStr content && rs1 then c1 ++ "\n</think>\n\n" ++ content.getD ""
      else if jsTruthyStr content then c1 ++ content.getD ""
      else c1
    let rs2 : Bool := if jsTruthyStr content && rs1 then false else rs1
    if c2 ≠ "" then (rs2, { content := some c2, reasoning_content := none })
    else (rs2, delta)
  else
    (reasoningStarted,
     { content := some (if jsTruthyStr delta.content then delta.content.getD "" else ""),
       reasoning_content := none })

/-- JS `s.includes(pat)`: some contiguous slice of `s` equals `pat`. -/
def hasInfix (pat : List Char) : List Char → Bool
  | [] => List.isPrefixOf pat []
  | c :: rest => List.isPrefixOf pat (c :: rest) || hasInfix pat rest

/-- Processing of one complete line (the forEach body, src/server.js
lines 148-195): lines not starting with `data: ` are dropped; a
`[DONE]` line is forwarded with a double newline; a parse failure
forwards the raw line with a single newline; otherwise the delta (if
any) is rewritten and the event re-serialized.  Only the
`reasoningStarted` flag is threaded; the buffer variable is not
touched by line processing. -/
def processLine (parse : List Char → Option SSEData) (stringify : SSEData → List Char)
    (rs : Bool) (line : List Char) : Bool × List (List Char) :=
  if List.isPrefixOf "data: ".toList line then
    if hasInfix "[DONE]".toList line then (rs, [line ++ "\n\n".toList])
    else
      match parse (line.drop 6) with
      | none => (rs, [line ++ "\n".toList])
      | some data =>
        match data.delta with
        | none => (rs, ["data: ".toList ++ stringify data ++ "\n\n".toList])
        | some delta =>
          ((transformDelta rs delta).1,
           ["data: ".toList ++ stringify { data with delta := some (transformDelta rs delta).2 } ++ "\n\n".toList])
  else (rs, [])

/-- JS `buffer.split("\n")` followed by `buffer = lines.pop() || ""`:
the complete lines and the trailing partial line. -/
def splitLines : List Char → List (List Char) × List Char
  | [] => ([], [])
  | c :: rest =>
    if c = '\n' then ([] :: (splitLines rest).1, (splitLines rest).2)
    else
      match (splitLines rest).1 with
      | [] => ([], c :: (splitLines rest).2)
      | l :: ls => ((c :: l) :: ls, (splitLines rest).2)

/-- Sequential processing of the complete lines of one chunk,
threading `reasoningStarted` and concatenating the writes. -/
def processLines (parse : List Char → Option SSEData) (stringify : SSEData → List Char) :
    Bool → List (List Char) → Bool × List (List Char)
  | rs, [] => (rs, [])
  | rs, l :: ls =>
      ((processLines parse stringify (processLine parse stringify rs l).1 ls).1,
       (processLine parse stringify rs l).2 ++
         (processLines parse stringify (processLine parse stringify rs l).1 ls).2)

/-- The two mutable variables of the stream handler. -/
structure StreamState where
  buffer : List Char
  reasoningStarted : Bool
deriving DecidableEq

/-- One invocation of the `data` event handler (src/server.js lines
143-197): append the chunk to the buffer, split on newlines, hold the
trailing partial line back as the new buffer, process the complete
lines.  Returns the new state and the writes to the client. -/
def processChunk (parse : List Char → Option SSEData) (stringify : SSEData → List Char)
    (st : StreamState) (chunk : List Char) : StreamState × List (List Char) :=
  (⟨(splitLines (st.buffer ++ chunk)).2,
    (processLines parse stringify st.reasoningStarted (splitLines (st.buffer ++ chunk)).1).1⟩,
   (processLines parse stringify st.reasoningStarted (splitLines (st.buffer ++ chunk)).1).2)

/-! ### Invariant predicates for the dispatcher proofs -/

/-- Success invariant. -/
def mkOkInvariant (env : Nat → AttemptOutcome) (n : Nat) (st : ProxyState) : Prop :=
  ∀ m, (makeNvidiaRequest env n st).result = .ok m →
    (makeNvidiaRequest env n st).state = ⟨m, 0⟩ ∧
    1 ≤ (makeNvidiaRequest env n st).attempts.length ∧
    (n + (makeNvidiaRequest env n st).attempts.length = 1 → m = st.currentModel) ∧
    (2 ≤ n + (makeNvidiaRequest env n st).attempts.length →
      FALLBACK_MODELS[n + (makeNvidiaRequest env n st).attempts.length - 2]? = some m)

/-- Error invariant. -/
def mkErrInvariant (env : Nat → AttemptOutcome) (n : Nat) (st : ProxyState) : Prop :=
  ∀ e, (makeNvidiaRequest env n st).result = .error e →
    (makeNvidiaRequest env n st).state.currentModel = st.currentModel ∧
    (n ≤ FALLBACK_MODELS.length →
      st.failedAttempts + (makeNvidiaRequest env n st).attempts.length =
        (makeNvidiaRequest env n st).state.failedAttempts + 1 ∧
      1 ≤ (makeNvidiaRequest env n st).attempts.length)

/-- Attempt-count bound. -/
def mkAttemptsBound (env : Nat → AttemptOutcome) (n : Nat) (st : ProxyState) : Prop :=
  (makeNvidiaRequest env n st).attempts.length ≤ FALLBACK_MODELS.length + 1 - n

/-! ### Helper lemmas: truncation -/

lemma selectTier_keepFirst_lt_keep (n : Nat) :
    (selectTier n).keepFirst < (selectTier n).keep := by
  unfold selectTier; split_ifs <;> decide

lemma truncateMessages_build {α : Type} (messages : List α) (tier : TruncationTier)
    (hsel : selectTier messages.length = tier)
    (hkf : tier.keepFirst < tier.keep) (h : tier.keep < messages.length) :
    truncateMessages messages =
      messages.take tier.keepFirst ++ messages.rtake (tier.keep - tier.keepFirst) := by
  have hk : ¬(tier.keep - tier.keepFirst = 0) := by omega
  simp only [truncateMessages, hsel, ENABLE_SMART_TRUNCATION, Bool.not_true, Bool.false_eq_true,
    if_false]
  rw [if_neg (show ¬ messages.length ≤ tier.keep by omega)]
  rw [jsSliceNeg, if_neg hk, List.rtake]
  rcases Nat.eq_zero_or_pos tier.keepFirst with h0 | h0
  · rw [if_neg (show ¬ 0 < tier.keepFirst by omega), h0, List.take_zero]
  · rw [if_pos h0]

lemma truncateMessages_long_len {α : Type} (messages : List α) (tier : TruncationTier)
    (hsel : selectTier messages.length = tier)
    (hkf : tier.keepFirst < tier.keep) (h : tier.keep < messages.length) :
    (truncateMessages messages).length = tier.keep := by
  rw [truncateMessages_build messages tier hsel hkf h]
  simp only [List.length_append, List.length_take, List.rtake, List.length_drop]
  omega

/-! ### Claim theorems: truncation, clamping, system message -/

/-- C1: for every message list longer than the selected tier's `keep`
value, `truncateMessages` returns exactly `tier.keep` messages: the
first `tier.keepFirst` input messages followed by the last
`tier.keep - tier.keepFirst` input messages, each segment in original
order (`List.take` and `List.rtake` preserve relative order). -/
theorem claim_C1_truncate_long {α : Type} (messages : List α)
    (h : (selectTier messages.length).keep < messages.length) :
    truncateMessages messages =
      messages.take (selectTier messages.length).keepFirst ++
        messages.rtake
          ((selectTier messages.length).keep - (selectTier messages.length).keepFirst) ∧
    (truncateMessages messages).length = (selectTier messages.length).keep :=
  ⟨truncateMessages_build messages _ rfl (selectTier_keepFirst_lt_keep _) h,
   truncateMessages_long_len messages _ rfl (selectTier_keepFirst_lt_keep _) h⟩

set_option maxRecDepth 4000 in
/-- Witness for C1 at a 121-message history (medium tier, keep 120,
keepFirst 10). -/
theorem claim_C1_truncate_long_witness :
    (selectTier (List.range 121).length).keep < (List.range 121).length ∧
    (truncateMessages (List.range 121) =
      (List.range 121).take (selectTier (List.range 121).length).keepFirst ++
        (List.range 121).rtake
          ((selectTier (List.range 121).length).keep -
            (selectTier (List.range 121).length).keepFirst) ∧
    (truncateMessages (List.range 121)).length = (selectTier (List.range 121).length).keep) :=
  ⟨by decide, claim_C1_truncate_long (List.range 121) (by decide)⟩

/-- C6: for every message list whose length is at most the selected
tier's `keep` value, `truncateMessages` is the identity.  (The input
is a persistent functional list, so it is never mutated.) -/
theorem claim_C6_truncate_id {α : Type} (messages : List α)
    (h : messages.length ≤ (selectTier messages.length).keep) :
    truncateMessages messages = messages := by
  simp only [truncateMessages, ENABLE_SMART_TRUNCATION, Bool.not_true, Bool.false_eq_true,
    if_false]
  rw [if_pos h]

/-- Witness for C6 at a 5-message history. -/
theorem claim_C6_truncate_id_witness :
    (List.range 5).length ≤ (selectTier (List.range 5).length).keep ∧
    truncateMessages (List.range 5) = List.range 5 :=
  ⟨by decide, claim_C6_truncate_id (List.range 5) (by decide)⟩

/-- C7: the effective `max_tokens` sent upstream is
`min (max requested 200) 8000` where `requested` defaults to 12000
when the body omits the field; in particular an absent `max_tokens`
yields 8000. -/
theorem claim_C7_max_tokens_clamp (bodyMaxTokens : Option Int) :
    effectiveMaxTokens bodyMaxTokens = min (max (bodyMaxTokens.getD 12000) 200) 8000 ∧
    effectiveMaxTokens none = 8000 := by
  constructor
  · cases bodyMaxTokens <;> rfl
  · decide

/-- C8: when the history has no message with role "system", exactly
one synthesized default system message is prepended; when one is
present the history is passed on unchanged. -/
theorem claim_C8_system_message (messages : List ChatMessage) :
    (messages.any (fun msg => msg.role == "system") = false →
      injectSystemMessage messages = antiAnalyzingSystemMessage :: messages ∧
      (injectSystemMessage messages).countP (fun msg => msg.role == "system") = 1) ∧
    (messages.any (fun msg => msg.role == "system") = true →
      injectSystemMessage messages = messages) := by
  constructor
  · intro h
    have hinj : injectSystemMessage messages = antiAnalyzingSystemMessage :: messages := by
      simp only [injectSystemMessage, h, Bool.false_eq_true, if_false]
    refine ⟨hinj, ?_⟩
    rw [hinj, List.countP_cons]
    have hz : messages.countP (fun msg => msg.role == "system") = 0 := by
      rw [List.countP_eq_zero]
      intro a ha
      have := List.any_eq_false.mp h a ha
      simpa using this
    simp [hz, antiAnalyzingSystemMessage]
  · intro h
    simp only [injectSystemMessage, h, if_true]

/-- Witness for C8: a history with no system message gets the default
prepended; a history with a system message is unchanged. -/
theorem claim_C8_system_message_witness :
    (injectSystemMessage [⟨"user", "hi"⟩] =
      antiAnalyzingSystemMessage :: [⟨"user", "hi"⟩]) ∧
    (injectSystemMessage [⟨"system", "be brief"⟩] = [⟨"system", "be brief"⟩]) :=
  ⟨((claim_C8_system_message [⟨"user", "hi"⟩]).1 (by decide)).1,
   (claim_C8_system_message [⟨"system", "be brief"⟩]).2 (by decide)⟩

/-! ### Helper lemmas: dispatcher one-step unfoldings -/

lemma mk_success (env : Nat → AttemptOutcome) (n : Nat) (st : ProxyState)
    (d : Option String) (m : String)
    (henv : env n = .resolved 200 d)
    (hm : (if n = 0 then some st.currentModel else FALLBACK_MODELS[n - 1]?) = some m) :
    makeNvidiaRequest env n st = ⟨.ok m, ⟨m, 0⟩, [m]⟩ := by
  conv_lhs => rw [makeNvidiaRequest.eq_def]
  rw [hm, henv]
  simp

lemma mk_clientError_step (env : Nat → AttemptOutcome) (n : Nat) (st : ProxyState)
    (s : Nat) (d : Option String) (m : String)
    (henv : env n = .resolved s d) (h4 : 400 ≤ s) (h5 : s < 500)
    (hn : n < FALLBACK_MODELS.length)
    (hm : (if n = 0 then some st.currentModel else FALLBACK_MODELS[n - 1]?) = some m) :
    makeNvidiaRequest env n st =
      ⟨(makeNvidiaRequest env (n + 1) ⟨st.currentModel, st.failedAttempts + 1⟩).result,
       (makeNvidiaRequest env (n + 1) ⟨st.currentModel, st.failedAttempts + 1⟩).state,
       m :: (makeNvidiaRequest env (n + 1) ⟨st.currentModel, st.failedAttempts + 1⟩).attempts⟩ := by
  conv_lhs => rw [makeNvidiaRequest.eq_def]
  rw [hm, henv]
  dsimp only
  rw [if_neg (show ¬ s = 200 by omega), if_pos (show 400 ≤ s ∧ s < 500 from ⟨h4, h5⟩),
    dif_pos hn]

lemma mk_clientError_last (env : Nat → AttemptOutcome) (st : ProxyState)
    (s : Nat) (d : Option String) (m : String)
    (henv : env FALLBACK_MODELS.length = .resolved s d) (h4 : 400 ≤ s) (h5 : s < 500)
    (hm : FALLBACK_MODELS[FALLBACK_MODELS.length - 1]? = some m) :
    makeNvidiaRequest env FALLBACK_MODELS.length st =
      ⟨.error (.withResponse s d), st, [m]⟩ := by
  conv_lhs => rw [makeNvidiaRequest.eq_def]
  rw [if_neg (show ¬ FALLBACK_MODELS.length = 0 by decide)]
  rw [hm, henv]
  dsimp only
  rw [if_neg (show ¬ s = 200 by omega), if_pos (show 400 ≤ s ∧ s < 500 from ⟨h4, h5⟩),
    dif_neg (show ¬ FALLBACK_MODELS.length < FALLBACK_MODELS.length by omega)]

lemma mk_thrownResponse_step (env : Nat → AttemptOutcome) (n : Nat) (st : ProxyState)
    (s : Nat) (d : Option String) (m : String)
    (henv : env n = .thrownResponse s d)
    (hn : n < FALLBACK_MODELS.length)
    (hm : (if n = 0 then some st.currentModel else FALLBACK_MODELS[n - 1]?) = some m) :
    makeNvidiaRequest env n st =
      ⟨(makeNvidiaRequest env (n + 1) ⟨st.currentModel, st.failedAttempts + 1⟩).result,
       (makeNvidiaRequest env (n + 1) ⟨st.currentModel, st.failedAttempts + 1⟩).state,
       m :: (makeNvidiaRequest env (n + 1) ⟨st.currentModel, st.failedAttempts + 1⟩).attempts⟩ := by
  conv_lhs => rw [makeNvidiaRequest.eq_def]
  rw [hm, henv]
  dsimp only
  rw [dif_pos hn]

lemma mk_thrownResponse_last (env : Nat → AttemptOutcome) (st : ProxyState)
    (s : Nat) (d : Option String) (m : String)
    (henv : env FALLBACK_MODELS.length = .thrownResponse s d)
    (hm : FALLBACK_MODELS[FALLBACK_MODELS.length - 1]? = some m) :
    makeNvidiaRequest env FALLBACK_MODELS.length st =
      ⟨.error (.withResponse s d), st, [m]⟩ := by
  conv_lhs => rw [makeNvidiaRequest.eq_def]
  rw [if_neg (show ¬ FALLBACK_MODELS.length = 0 by decide)]
  rw [hm, henv]
  dsimp only
  rw [dif_neg (show ¬ FALLBACK_MODELS.length < FALLBACK_MODELS.length by omega)]

lemma mk_otherStatus_step (env : Nat → AttemptOutcome) (n : Nat) (st : ProxyState)
    (s : Nat) (d : Option String) (m : String)
    (henv : env n = .resolved s d) (hs : ¬ s = 200) (h45 : ¬(400 ≤ s ∧ s < 500))
    (hn : n < FALLBACK_MODELS.length)
    (hm : (if n = 0 then some st.currentModel else FALLBACK_MODELS[n - 1]?) = some m) :
    makeNvidiaRequest env n st =
      ⟨(makeNvidiaRequest env (n + 1) ⟨st.currentModel, st.failedAttempts + 1⟩).result,
       (makeNvidiaRequest env (n + 1) ⟨st.currentModel, st.failedAttempts + 1⟩).state,
       m :: (makeNvidiaRequest env (n + 1) ⟨st.currentModel, st.failedAttempts + 1⟩).attempts⟩ := by
  conv_lhs => rw [makeNvidiaRequest.eq_def]
  rw [hm, henv]
  dsimp only
  rw [if_neg hs, if_neg h45, dif_pos hn]

lemma mk_otherStatus_last (env : Nat → AttemptOutcome) (st : ProxyState)
    (s : Nat) (d : Option String) (m : String)
    (henv : env FALLBACK_MODELS.length = .resolved s d) (hs : ¬ s = 200)
    (h45 : ¬(400 ≤ s ∧ s < 500))
    (hm : FALLBACK_MODELS[FALLBACK_MODELS.length - 1]? = some m) :
    makeNvidiaRequest env FALLBACK_MODELS.length st =
      ⟨.error (.withResponse s d), st, [m]⟩ := by
  conv_lhs => rw [makeNvidiaRequest.eq_def]
  rw [if_neg (show ¬ FALLBACK_MODELS.length = 0 by decide)]
  rw [hm, henv]
  dsimp only
  rw [if_neg hs, if_neg h45,
    dif_neg (show ¬ FALLBACK_MODELS.length < FALLBACK_MODELS.length by omega)]

lemma mk_network_step (env : Nat → AttemptOutcome) (n : Nat) (st : ProxyState)
    (msg m : String)
    (henv : env n = .thrownNetwork msg)
    (hn : n < FALLBACK_MODELS.length)
    (hm : (if n = 0 then some st.currentModel else FALLBACK_MODELS[n - 1]?) = some m) :
    makeNvidiaRequest env n st =
      ⟨(makeNvidiaRequest env (n + 1) ⟨st.currentModel, st.failedAttempts + 1⟩).result,
       (makeNvidiaRequest env (n + 1) ⟨st.currentModel, st.failedAttempts + 1⟩).state,
       m :: (makeNvidiaRequest env (n + 1) ⟨st.currentModel, st.failedAttempts + 1⟩).attempts⟩ := by
  conv_lhs => rw [makeNvidiaRequest.eq_def]
  rw [hm, henv]
  dsimp only
  rw [dif_pos hn]

lemma mk_network_last (env : Nat → AttemptOutcome) (st : ProxyState) (msg m : String)
    (henv : env FALLBACK_MODELS.length = .thrownNetwork msg)
    (hm : FALLBACK_MODELS[FALLBACK_MODELS.length - 1]? = some m) :
    makeNvidiaRequest env FALLBACK_MODELS.length st =
      ⟨.error (.network msg), st, [m]⟩ := by
  conv_lhs => rw [makeNvidiaRequest.eq_def]
  rw [if_neg (show ¬ FALLBACK_MODELS.length = 0 by decide)]
  rw [hm, henv]
  dsimp only
  rw [dif_neg (show ¬ FALLBACK_MODELS.length < FALLBACK_MODELS.length by omega)]

lemma mk_exhausted (env : Nat → AttemptOutcome) (n : Nat) (st : ProxyState)
    (hn : FALLBACK_MODELS.length < n) :
    makeNvidiaRequest env n st = ⟨.error .exhausted, st, []⟩ := by
  conv_lhs => rw [makeNvidiaRequest.eq_def]
  rw [if_neg (show ¬ n = 0 by omega)]
  rw [List.getElem?_eq_none (show FALLBACK_MODELS.length ≤ n - 1 by omega)]

/-! ### The dispatcher invariant -/

lemma invariant_of_success (env : Nat → AttemptOutcome) (n : Nat) (st : ProxyState) (m : String)
    (hnle : n ≤ FALLBACK_MODELS.length)
    (hm : (if n = 0 then some st.currentModel else FALLBACK_MODELS[n - 1]?) = some m)
    (hstep : makeNvidiaRequest env n st = ⟨.ok m, ⟨m, 0⟩, [m]⟩) :
    mkOkInvariant env n st ∧ mkErrInvariant env n st ∧ mkAttemptsBound env n st := by
  refine ⟨?_, ?_, ?_⟩
  · intro m' hres
    rw [hstep] at hres
    obtain rfl : m = m' := by simpa using hres
    rw [hstep]
    refine ⟨rfl, by simp, ?_, ?_⟩
    · intro h1
      have hn0 : n = 0 := by simpa using h1
      rw [if_pos hn0] at hm
      simpa using hm.symm
    · intro h2
      simp only [List.length_cons, List.length_nil] at h2 ⊢
      have hn1 : ¬ n = 0 := by omega
      rw [if_neg hn1] at hm
      have hidx : n + (0 + 1) - 2 = n - 1 := by omega
      rw [hidx]
      exact hm
  · intro e hres
    rw [hstep] at hres
    simp at hres
  · rw [mkAttemptsBound, hstep]
    simp only [List.length_cons, List.length_nil]
    omega

lemma invariant_of_terminal (env : Nat → AttemptOutcome) (n : Nat) (st : ProxyState)
    (e : ReqError) (m : String)
    (hnle : n ≤ FALLBACK_MODELS.length)
    (hstep : makeNvidiaRequest env n st = ⟨.error e, st, [m]⟩) :
    mkOkInvariant env n st ∧ mkErrInvariant env n st ∧ mkAttemptsBound env n st := by
  refine ⟨?_, ?_, ?_⟩
  · intro m' hres
    rw [hstep] at hres
    simp at hres
  · intro e' hres
    rw [hstep]
    exact ⟨rfl, fun _ => ⟨by simp, by simp⟩⟩
  · rw [mkAttemptsBound, hstep]
    simp only [List.length_cons, List.length_nil]
    omega

lemma invariant_of_exhausted (env : Nat → AttemptOutcome) (n : Nat) (st : ProxyState)
    (hn : FALLBACK_MODELS.length < n) :
    mkOkInvariant env n st ∧ mkErrInvariant env n st ∧ mkAttemptsBound env n st := by
  have hstep := mk_exhausted env n st hn
  refine ⟨?_, ?_, ?_⟩
  · intro m' hres
    rw [hstep] at hres
    simp at hres
  · intro e' hres
    rw [hstep]
    exact ⟨rfl, fun hle => absurd hle (by omega)⟩
  · rw [mkAttemptsBound, hstep]
    simp

lemma invariant_of_step (env : Nat → AttemptOutcome) (n : Nat) (st : ProxyState) (m : String)
    (hn : n < FALLBACK_MODELS.length)
    (hstep : makeNvidiaRequest env n st =
      ⟨(makeNvidiaRequest env (n + 1) ⟨st.currentModel, st.failedAttempts + 1⟩).result,
       (makeNvidiaRequest env (n + 1) ⟨st.currentModel, st.failedAttempts + 1⟩).state,
       m :: (makeNvidiaRequest env (n + 1) ⟨st.currentModel, st.failedAttempts + 1⟩).attempts⟩)
    (ihok : mkOkInvariant env (n + 1) ⟨st.currentModel, st.failedAttempts + 1⟩)
    (iherr : mkErrInvariant env (n + 1) ⟨st.currentModel, st.failedAttempts + 1⟩)
    (ihbound : mkAttemptsBound env (n + 1) ⟨st.currentModel, st.failedAttempts + 1⟩) :
    mkOkInvariant env n st ∧ mkErrInvariant env n st ∧ mkAttemptsBound env n st := by
  refine ⟨?_, ?_, ?_⟩
  · intro m' hres
    rw [hstep] at hres
    simp only at hres
    obtain ⟨hstate, hlen, hone, hidx⟩ := ihok m' hres
    rw [hstep]
    refine ⟨hstate, by simp, ?_, ?_⟩
    · intro h1
      exfalso
      simp only [List.length_cons] at h1
      omega
    · intro h2
      simp only [List.length_cons] at h2 ⊢
      have heq : n + ((makeNvidiaRequest env (n + 1)
          ⟨st.currentModel, st.failedAttempts + 1⟩).attempts.length + 1) - 2 =
          (n + 1) + (makeNvidiaRequest env (n + 1)
          ⟨st.currentModel, st.failedAttempts + 1⟩).attempts.length - 2 := by omega
      rw [heq]
      exact hidx (by omega)
  · intro e hres
    rw [hstep] at hres
    simp only at hres
    obtain ⟨hcm, hfa⟩ := iherr e hres
    rw [hstep]
    refine ⟨hcm, ?_⟩
    intro hnle
    obtain ⟨hfa1, hlen1⟩ := hfa (by omega)
    replace hfa1 : st.failedAttempts + 1 +
        (makeNvidiaRequest env (n + 1) ⟨st.currentModel, st.failedAttempts + 1⟩).attempts.length =
        (makeNvidiaRequest env (n + 1)
          ⟨st.currentModel, st.failedAttempts + 1⟩).state.failedAttempts + 1 := hfa1
    constructor
    · simp only [List.length_cons]
      omega
    · simp only [List.length_cons]
      omega
  · rw [mkAttemptsBound, hstep]
    rw [mkAttemptsBound] at ihbound
    simp only [List.length_cons]
    omega

lemma makeNvidiaRequest_invariant (env : Nat → AttemptOutcome) :
    ∀ (fuel n : Nat) (st : ProxyState), FALLBACK_MODELS.length + 1 ≤ fuel + n →
      mkOkInvariant env n st ∧ mkErrInvariant env n st ∧ mkAttemptsBound env n st := by
  intro fuel
  induction fuel with
  | zero =>
      intro n st hn
      exact invariant_of_exhausted env n st (by omega)
  | succ fuel ih =>
      intro n st hn
      by_cases hbig : FALLBACK_MODELS.length < n
      · exact invariant_of_exhausted env n st hbig
      · have hnle : n ≤ FALLBACK_MODELS.length := by omega
        have hmm : ∃ m, (if n = 0 then some st.currentModel else FALLBACK_MODELS[n - 1]?) = some m := by
          by_cases h0 : n = 0
          · exact ⟨st.currentModel, by rw [if_pos h0]⟩
          · have hlt : n - 1 < FALLBACK_MODELS.length := by omega
            exact ⟨FALLBACK_MODELS[n - 1], by rw [if_neg h0]; exact List.getElem?_eq_getElem hlt⟩
        obtain ⟨m, hm⟩ := hmm
        cases henv : env n with
        | resolved s d =>
          by_cases hs : s = 200
          · subst hs
            exact invariant_of_success env n st m hnle hm (mk_success env n st d m henv hm)
          · by_cases h45 : 400 ≤ s ∧ s < 500
            · by_cases hlt : n < FALLBACK_MODELS.length
              · obtain ⟨ihok, iherr, ihb⟩ := ih (n + 1) ⟨st.currentModel, st.failedAttempts + 1⟩ (by omega)
                exact invariant_of_step env n st m hlt
                  (mk_clientError_step env n st s d m henv h45.1 h45.2 hlt hm) ihok iherr ihb
              · have hEq : n = FALLBACK_MODELS.length := by omega
                subst hEq
                refine invariant_of_terminal env _ st _ m le_rfl
                  (mk_clientError_last env st s d m henv h45.1 h45.2 ?_)
                rw [← hm, if_neg (show ¬ FALLBACK_MODELS.length = 0 by decide)]
            · by_cases hlt : n < FALLBACK_MODELS.length
              · obtain ⟨ihok, iherr, ihb⟩ := ih (n + 1) ⟨st.currentModel, st.failedAttempts + 1⟩ (by omega)
                exact invariant_of_step env n st m hlt
                  (mk_otherStatus_step env n st s d m henv hs h45 hlt hm) ihok iherr ihb
              · have hEq : n = FALLBACK_MODELS.length := by omega
                subst hEq
                refine invariant_of_terminal env _ st _ m le_rfl
                  (mk_otherStatus_last env st s d m henv hs h45 ?_)
                rw [← hm, if_neg (show ¬ FALLBACK_MODELS.length = 0 by decide)]
        | thrownResponse s d =>
          by_cases hlt : n < FALLBACK_MODELS.length
          · obtain ⟨ihok, iherr, ihb⟩ := ih (n + 1) ⟨st.currentModel, st.failedAttempts + 1⟩ (by omega)
            exact invariant_of_step env n st m hlt
              (mk_thrownResponse_step env n st s d m henv hlt hm) ihok iherr ihb
          · have hEq : n = FALLBACK_MODELS.length := by omega
            subst hEq
            refine invariant_of_terminal env _ st _ m le_rfl
              (mk_thrownResponse_last env st s d m henv ?_)
            rw [← hm, if_neg (show ¬ FALLBACK_MODELS.length = 0 by decide)]
        | thrownNetwork msg =>
          by_cases hlt : n < FALLBACK_MODELS.length
          · obtain ⟨ihok, iherr, ihb⟩ := ih (n + 1) ⟨st.currentModel, st.failedAttempts + 1⟩ (by omega)
            exact invariant_of_step env n st m hlt
              (mk_network_step env n st msg m henv hlt hm) ihok iherr ihb
          · have hEq : n = FALLBACK_MODELS.length := by omega
            subst hEq
            refine invariant_of_terminal env _ st _ m le_rfl
              (mk_network_last env st msg m henv ?_)
            rw [← hm, if_neg (show ¬ FALLBACK_MODELS.length = 0 by decide)]

/-! ### Claim theorems: dispatcher -/

/-- Attempt 0 of any dispatch uses the current model of the state
it starts from. -/
lemma mk_head (env : Nat → AttemptOutcome) (st : ProxyState) :
    (makeNvidiaRequest env 0 st).attempts.head? = some st.currentModel := by
  conv_lhs => rw [makeNvidiaRequest.eq_def]
  rw [if_pos rfl]
  cases env 0 with
  | resolved s d =>
      dsimp only
      rw [dif_pos (show (0 : Nat) < FALLBACK_MODELS.length by decide)]
      split
      · rfl
      · split <;> rfl
  | thrownResponse s d =>
      dsimp only
      rw [dif_pos (show (0 : Nat) < FALLBACK_MODELS.length by decide)]
      rfl
  | thrownNetwork msg =>
      dsimp only
      rw [dif_pos (show (0 : Nat) < FALLBACK_MODELS.length by decide)]
      rfl

/-- C10: `makeNvidiaRequest` is total (it is defined by well-founded
recursion on the remaining fallback budget, each retry increasing the
attempt number by exactly 1 and retrying only while
`attemptNum < FALLBACK_MODELS.length`), and a dispatch starting at
attempt 0 performs at most `1 + FALLBACK_MODELS.length` upstream
attempts before returning or throwing, for every environment. -/
theorem claim_C10_termination (env : Nat → AttemptOutcome) (st : ProxyState) :
    (makeNvidiaRequest env 0 st).attempts.length ≤ 1 + FALLBACK_MODELS.length := by
  have h := (makeNvidiaRequest_invariant env (FALLBACK_MODELS.length + 1) 0 st (by omega)).2.2
  rw [mkAttemptsBound] at h
  omega

/-- C4: when a dispatch succeeds, the process-wide current model
becomes the successful attempt's model: for a success at attempt 0 it
is unchanged (the attempt-0 model IS the current model), and for a
success at attempt `k > 0` it becomes `FALLBACK_MODELS[k-1]`.
Attempt 0 of every subsequent dispatch then uses that value, and
failed dispatches never change it. -/
theorem claim_C4_sticky (env : Nat → AttemptOutcome) (st : ProxyState) (m : String)
    (hok : (makeNvidiaRequest env 0 st).result = .ok m) :
    (makeNvidiaRequest env 0 st).state.currentModel = m ∧
    ((makeNvidiaRequest env 0 st).attempts.length = 1 → m = st.currentModel) ∧
    (∀ k, (makeNvidiaRequest env 0 st).attempts.length = k + 1 → 0 < k →
      FALLBACK_MODELS[k - 1]? = some m) ∧
    (∀ env2, (makeNvidiaRequest env2 0 (makeNvidiaRequest env 0 st).state).attempts.head? =
      some m) ∧
    (∀ env2 e,
      (makeNvidiaRequest env2 0 (makeNvidiaRequest env 0 st).state).result = .error e →
      (makeNvidiaRequest env2 0 (makeNvidiaRequest env 0 st).state).state.currentModel = m) := by
  obtain ⟨hstate, hlen, hone, hidx⟩ :=
    (makeNvidiaRequest_invariant env (FALLBACK_MODELS.length + 1) 0 st (by omega)).1 m hok
  refine ⟨by rw [hstate], ?_, ?_, ?_, ?_⟩
  · intro h1
    exact hone (by omega)
  · intro k hk hkpos
    have := hidx (by omega)
    rw [hk] at this
    have hidx2 : 0 + (k + 1) - 2 = k - 1 := by omega
    rw [hidx2] at this
    exact this
  · intro env2
    rw [mk_head env2 _, hstate]
  · intro env2 e herr
    have := ((makeNvidiaRequest_invariant env2 (FALLBACK_MODELS.length + 1) 0
      (makeNvidiaRequest env 0 st).state (by omega)).2.1 e herr).1
    rw [this, hstate]



/-- Witness for C4: attempt 0 gets a 429, attempt 1 succeeds, and
the current model becomes the first fallback model. -/
theorem claim_C4_sticky_witness :
    ((makeNvidiaRequest
        (fun k => if k = 0 then AttemptOutcome.resolved 429 none
                  else AttemptOutcome.resolved 200 none)
        0 ⟨PRIMARY_MODEL, 0⟩).result = .ok "deepseek-ai/deepseek-v3.1") ∧
    (makeNvidiaRequest
        (fun k => if k = 0 then AttemptOutcome.resolved 429 none
                  else AttemptOutcome.resolved 200 none)
        0 ⟨PRIMARY_MODEL, 0⟩).state.currentModel = "deepseek-ai/deepseek-v3.1" :=
  ⟨by simp [makeNvidiaRequest, FALLBACK_MODELS],
   (claim_C4_sticky _ ⟨PRIMARY_MODEL, 0⟩ "deepseek-ai/deepseek-v3.1"
     (by simp [makeNvidiaRequest, FALLBACK_MODELS])).1⟩

/-- C5 (amended): the failure counter is reset to zero on any
successful attempt; on an exhausted dispatch it is incremented once
per failing attempt EXCEPT the final one, i.e. the initial counter
plus the number of attempts equals the final counter plus one. -/
theorem claim_C5_failure_counter (env : Nat → AttemptOutcome) (st : ProxyState) :
    (∀ m, (makeNvidiaRequest env 0 st).result = .ok m →
      (makeNvidiaRequest env 0 st).state.failedAttempts = 0) ∧
    (∀ e, (makeNvidiaRequest env 0 st).result = .error e →
      st.failedAttempts + (makeNvidiaRequest env 0 st).attempts.length =
        (makeNvidiaRequest env 0 st).state.failedAttempts + 1) := by
  constructor
  · intro m hok
    have hstate :=
      ((makeNvidiaRequest_invariant env (FALLBACK_MODELS.length + 1) 0 st (by omega)).1
        m hok).1
    rw [hstate]
  · intro e herr
    exact (((makeNvidiaRequest_invariant env (FALLBACK_MODELS.length + 1) 0 st
      (by omega)).2.1 e herr).2 (by omega)).1

/-- Counterexample to C5 as stated: with every attempt returning a
404, the dispatch makes 5 non-success attempts starting from a zero
counter, yet the final counter is 4, not 5 — the terminal failing
attempt is surfaced without incrementing the counter. -/
theorem claim_C5_counterexample :
    (makeNvidiaRequest (fun _ => AttemptOutcome.resolved 404 none) 0
      ⟨PRIMARY_MODEL, 0⟩).attempts.length = 5 ∧
    (makeNvidiaRequest (fun _ => AttemptOutcome.resolved 404 none) 0
      ⟨PRIMARY_MODEL, 0⟩).result = .error (.withResponse 404 none) ∧
    (makeNvidiaRequest (fun _ => AttemptOutcome.resolved 404 none) 0
      ⟨PRIMARY_MODEL, 0⟩).state.failedAttempts = 4 := by
  refine ⟨?_, ?_, ?_⟩ <;> simp [makeNvidiaRequest, FALLBACK_MODELS]

/-- Witness for the amended C5 at the all-404 environment. -/
theorem claim_C5_failure_counter_witness :
    (0 : Nat) + (makeNvidiaRequest (fun _ => AttemptOutcome.resolved 404 none) 0
      ⟨PRIMARY_MODEL, 0⟩).attempts.length =
    (makeNvidiaRequest (fun _ => AttemptOutcome.resolved 404 none) 0
      ⟨PRIMARY_MODEL, 0⟩).state.failedAttempts + 1 :=
  (claim_C5_failure_counter _ ⟨PRIMARY_MODEL, 0⟩).2 (.withResponse 404 none)
    (by simp [makeNvidiaRequest, FALLBACK_MODELS])



/-- C2: when every attempt resolves with a 4xx status, the
dispatcher performs exactly `1 + FALLBACK_MODELS.length` attempts —
attempt 0 with the current model and attempt `k > 0` with
`FALLBACK_MODELS[k-1]`, in declared order — and then throws a
terminal error carrying the last 4xx response. -/
theorem claim_C2_all_4xx (env : Nat → AttemptOutcome) (st : ProxyState)
    (henv : ∀ k, k ≤ FALLBACK_MODELS.length →
      ∃ s d, env k = .resolved s d ∧ 400 ≤ s ∧ s < 500) :
    (makeNvidiaRequest env 0 st).attempts = st.currentModel :: FALLBACK_MODELS ∧
    ∃ s d, 400 ≤ s ∧ s < 500 ∧
      (makeNvidiaRequest env 0 st).result = .error (.withResponse s d) := by
  obtain ⟨s0, d0, h0, h0a, h0b⟩ := henv 0 (by decide)
  obtain ⟨s1, d1, h1, h1a, h1b⟩ := henv 1 (by decide)
  obtain ⟨s2, d2, h2, h2a, h2b⟩ := henv 2 (by decide)
  obtain ⟨s3, d3, h3, h3a, h3b⟩ := henv 3 (by decide)
  obtain ⟨s4, d4, h4, h4a, h4b⟩ := henv 4 (by decide)
  have e4 : makeNvidiaRequest env 4 ⟨st.currentModel, st.failedAttempts + 1 + 1 + 1 + 1⟩ =
      ⟨.error (.withResponse s4 d4),
       ⟨st.currentModel, st.failedAttempts + 1 + 1 + 1 + 1⟩,
       ["deepseek-ai/deepseek-r1-distill-qwen-32b"]⟩ :=
    mk_clientError_last env _ s4 d4 _ h4 h4a h4b rfl
  have e3 : makeNvidiaRequest env 3 ⟨st.currentModel, st.failedAttempts + 1 + 1 + 1⟩ =
      ⟨.error (.withResponse s4 d4),
       ⟨st.currentModel, st.failedAttempts + 1 + 1 + 1 + 1⟩,
       ["deepseek-ai/deepseek-v3.1-terminus",
        "deepseek-ai/deepseek-r1-distill-qwen-32b"]⟩ := by
    rw [mk_clientError_step env 3 _ s3 d3 "deepseek-ai/deepseek-v3.1-terminus" h3 h3a h3b
      (by decide) (by rw [if_neg (by decide)]; rfl)]
    rw [show (3 : Nat) + 1 = 4 from rfl]
    dsimp only
    rw [e4]
  have e2 : makeNvidiaRequest env 2 ⟨st.currentModel, st.failedAttempts + 1 + 1⟩ =
      ⟨.error (.withResponse s4 d4),
       ⟨st.currentModel, st.failedAttempts + 1 + 1 + 1 + 1⟩,
       ["deepseek-ai/deepseek-v3.2", "deepseek-ai/deepseek-v3.1-terminus",
        "deepseek-ai/deepseek-r1-distill-qwen-32b"]⟩ := by
    rw [mk_clientError_step env 2 _ s2 d2 "deepseek-ai/deepseek-v3.2" h2 h2a h2b
      (by decide) (by rw [if_neg (by decide)]; rfl)]
    rw [show (2 : Nat) + 1 = 3 from rfl]
    dsimp only
    rw [e3]
  have e1 : makeNvidiaRequest env 1 ⟨st.currentModel, st.failedAttempts + 1⟩ =
      ⟨.error (.withResponse s4 d4),
       ⟨st.currentModel, st.failedAttempts + 1 + 1 + 1 + 1⟩,
       ["deepseek-ai/deepseek-v3.1", "deepseek-ai/deepseek-v3.2",
        "deepseek-ai/deepseek-v3.1-terminus",
        "deepseek-ai/deepseek-r1-distill-qwen-32b"]⟩ := by
    rw [mk_clientError_step env 1 _ s1 d1 "deepseek-ai/deepseek-v3.1" h1 h1a h1b
      (by decide) (by rw [if_neg (by decide)]; rfl)]
    rw [show (1 : Nat) + 1 = 2 from rfl]
    dsimp only
    rw [e2]
  rw [mk_clientError_step env 0 st s0 d0 st.currentModel h0 h0a h0b
    (by decide) (by rw [if_pos rfl])]
  rw [show (0 : Nat) + 1 = 1 from rfl]
  dsimp only
  rw [e1]
  exact ⟨rfl, s4, d4, h4a, h4b, rfl⟩

/-- Witness for C2 at the all-404 environment. -/
theorem claim_C2_all_4xx_witness :
    ((makeNvidiaRequest (fun _ => AttemptOutcome.resolved 404 none) 0
        ⟨PRIMARY_MODEL, 0⟩).attempts = PRIMARY_MODEL :: FALLBACK_MODELS ∧
     ∃ s d, 400 ≤ s ∧ s < 500 ∧
       (makeNvidiaRequest (fun _ => AttemptOutcome.resolved 404 none) 0
         ⟨PRIMARY_MODEL, 0⟩).result = .error (.withResponse s d)) :=
  claim_C2_all_4xx _ ⟨PRIMARY_MODEL, 0⟩
    (fun k _ => ⟨404, none, rfl, by omega, by omega⟩)



/-- Counterexample to C3 as stated: when every model's attempt
fails with an upstream 500 response that carries a body, the handler
passes through status 500 with the upstream data — it does NOT
respond 503. -/
theorem claim_C3_counterexample :
    handleChatFailure
      (fun _ => AttemptOutcome.thrownResponse 500 (some "Internal Server Error"))
      ⟨PRIMARY_MODEL, 0⟩ =
    some (500, ErrorBody.upstreamData "Internal Server Error") := by
  simp [handleChatFailure, makeNvidiaRequest, FALLBACK_MODELS, chatCompletionsCatch,
    errResponse]

/-- C3 (amended): when every attempt fails with a 500-class thrown
response carrying no body, the handler responds 503 with the fixed
user-safe service-unavailable JSON body; when the terminal error
carries an upstream body (and is not a 429), the upstream status and
body are passed through instead. -/
theorem claim_C3_amended (env : Nat → AttemptOutcome) (st : ProxyState)
    (henv : ∀ k, k ≤ FALLBACK_MODELS.length →
      ∃ s, 500 ≤ s ∧ env k = .thrownResponse s none) :
    handleChatFailure env st =
      some (503,
        .fixedMessage "All models temporarily unavailable" "service_unavailable" 503) ∧
    (∀ s d, ¬ s = 429 →
      chatCompletionsCatch (.withResponse s (some d)) = (s, .upstreamData d)) := by
  obtain ⟨s0, h0a, h0⟩ := henv 0 (by decide)
  obtain ⟨s1, h1a, h1⟩ := henv 1 (by decide)
  obtain ⟨s2, h2a, h2⟩ := henv 2 (by decide)
  obtain ⟨s3, h3a, h3⟩ := henv 3 (by decide)
  obtain ⟨s4, h4a, h4⟩ := henv 4 (by decide)
  have e4 : makeNvidiaRequest env 4 ⟨st.currentModel, st.failedAttempts + 1 + 1 + 1 + 1⟩ =
      ⟨.error (.withResponse s4 none),
       ⟨st.currentModel, st.failedAttempts + 1 + 1 + 1 + 1⟩,
       ["deepseek-ai/deepseek-r1-distill-qwen-32b"]⟩ :=
    mk_thrownResponse_last env _ s4 none _ h4 rfl
  have e3 : makeNvidiaRequest env 3 ⟨st.currentModel, st.failedAttempts + 1 + 1 + 1⟩ =
      ⟨.error (.withResponse s4 none),
       ⟨st.currentModel, st.failedAttempts + 1 + 1 + 1 + 1⟩,
       ["deepseek-ai/deepseek-v3.1-terminus",
        "deepseek-ai/deepseek-r1-distill-qwen-32b"]⟩ := by
    rw [mk_thrownResponse_step env 3 _ s3 none "deepseek-ai/deepseek-v3.1-terminus" h3
      (by decide) (by rw [if_neg (by decide)]; rfl)]
    rw [show (3 : Nat) + 1 = 4 from rfl]
    dsimp only
    rw [e4]
  have e2 : makeNvidiaRequest env 2 ⟨st.currentModel, st.failedAttempts + 1 + 1⟩ =
      ⟨.error (.withResponse s4 none),
       ⟨st.currentModel, st.failedAttempts + 1 + 1 + 1 + 1⟩,
       ["deepseek-ai/deepseek-v3.2", "deepseek-ai/deepseek-v3.1-terminus",
        "deepseek-ai/deepseek-r1-distill-qwen-32b"]⟩ := by
    rw [mk_thrownResponse_step env 2 _ s2 none "deepseek-ai/deepseek-v3.2" h2
      (by decide) (by rw [if_neg (by decide)]; rfl)]
    rw [show (2 : Nat) + 1 = 3 from rfl]
    dsimp only
    rw [e3]
  have e1 : makeNvidiaRequest env 1 ⟨st.currentModel, st.failedAttempts + 1⟩ =
      ⟨.error (.withResponse s4 none),
       ⟨st.currentModel, st.failedAttempts + 1 + 1 + 1 + 1⟩,
       ["deepseek-ai/deepseek-v3.1", "deepseek-ai/deepseek-v3.2",
        "deepseek-ai/deepseek-v3.1-terminus",
        "deepseek-ai/deepseek-r1-distill-qwen-32b"]⟩ := by
    rw [mk_thrownResponse_step env 1 _ s1 none "deepseek-ai/deepseek-v3.1" h1
      (by decide) (by rw [if_neg (by decide)]; rfl)]
    rw [show (1 : Nat) + 1 = 2 from rfl]
    dsimp only
    rw [e2]
  have e0 : (makeNvidiaRequest env 0 st).result = .error (.withResponse s4 none) := by
    rw [mk_thrownResponse_step env 0 st s0 none st.currentModel h0
      (by decide) (by rw [if_pos rfl])]
    rw [show (0 : Nat) + 1 = 1 from rfl]
    dsimp only
    rw [e1]
  constructor
  · rw [handleChatFailure, e0]
    rfl
  · intro s d hs
    rw [chatCompletionsCatch]
    dsimp only [errResponse]
    rw [if_neg hs]

/-- Witness for the amended C3: all-500-without-body yields the
503 fixed body; a 500 with body is passed through. -/
theorem claim_C3_amended_witness :
    handleChatFailure (fun _ => AttemptOutcome.thrownResponse 500 none)
      ⟨PRIMARY_MODEL, 0⟩ =
      some (503,
        .fixedMessage "All models temporarily unavailable" "service_unavailable" 503) ∧
    chatCompletionsCatch (.withResponse 500 (some "boom")) =
      (500, .upstreamData "boom") :=
  ⟨(claim_C3_amended _ ⟨PRIMARY_MODEL, 0⟩
      (fun k _ => ⟨500, by omega, rfl⟩)).1,
   (claim_C3_amended (fun _ => AttemptOutcome.thrownResponse 500 none) ⟨PRIMARY_MODEL, 0⟩
      (fun k _ => ⟨500, by omega, rfl⟩)).2 500 "boom" (by omega)⟩

/-! ### Claim theorems: streaming normalizer -/

/-- Splitting a concatenation: the complete lines of `a ++ b` are
the complete lines of `a` followed by the complete lines of the held
back tail of `a` prepended to `b`, and the final tails agree. -/
lemma splitLines_append (a b : List Char) :
    splitLines (a ++ b) =
      ((splitLines a).1 ++ (splitLines ((splitLines a).2 ++ b)).1,
       (splitLines ((splitLines a).2 ++ b)).2) := by
  induction a with
  | nil => simp [splitLines]
  | cons c a ih =>
    by_cases hc : c = '\n'
    · subst hc
      simp only [List.cons_append, splitLines, List.append_eq, if_true]
      rw [ih]
    · simp only [List.cons_append, splitLines, List.append_eq]
      rw [if_neg hc, if_neg hc]
      rw [ih]
      dsimp only
      cases hsa : (splitLines a).1 with
      | nil =>
        dsimp only
        simp only [List.nil_append, List.cons_append, splitLines, List.append_eq]
        rw [if_neg hc]
      | cons l ls =>
        dsimp only
        simp



/-- Processing a concatenation of complete lines threads the
reasoning flag sequentially and concatenates the writes. -/
lemma processLines_append (parse : List Char → Option SSEData)
    (stringify : SSEData → List Char) (rs : Bool) (L1 L2 : List (List Char)) :
    processLines parse stringify rs (L1 ++ L2) =
      ((processLines parse stringify (processLines parse stringify rs L1).1 L2).1,
       (processLines parse stringify rs L1).2 ++
         (processLines parse stringify (processLines parse stringify rs L1).1 L2).2) := by
  induction L1 generalizing rs with
  | nil => simp [processLines]
  | cons l L1 ih =>
    simp only [List.cons_append, processLines, List.append_eq]
    rw [ih]
    simp

/-- C9: delivering a stream in two chunks `c1`, `c2` produces
exactly the same final handler state and the same concatenated client
writes as delivering `c1 ++ c2` in a single chunk, for every parser
and serializer.  In particular a `data:` line split across two
arbitrary chunk boundaries is buffered and processed once completed,
yielding the same parsed event and output as a single chunk. -/
theorem claim_C9_chunk_split (parse : List Char → Option SSEData)
    (stringify : SSEData → List Char) (st : StreamState) (c1 c2 : List Char) :
    (processChunk parse stringify (processChunk parse stringify st c1).1 c2).1 =
      (processChunk parse stringify st (c1 ++ c2)).1 ∧
    (processChunk parse stringify st c1).2 ++
        (processChunk parse stringify (processChunk parse stringify st c1).1 c2).2 =
      (processChunk parse stringify st (c1 ++ c2)).2 := by
  simp only [processChunk]
  rw [show st.buffer ++ (c1 ++ c2) = (st.buffer ++ c1) ++ c2 from (List.append_assoc _ _ _).symm]
  rw [splitLines_append (st.buffer ++ c1) c2]
  rw [processLines_append]
  exact ⟨rfl, rfl⟩

end DeepseekProxy
